import Mathlib

/-!
Formal model of the chatbots API backend (`chatbots_api/main.py`).

The program is a FastAPI service over an SQLite database with two tables
(`chats` and `messages`), five persona chat endpoints, a title-generation
endpoint, and CRUD endpoints for chats.  We embed the database as an
explicit state (`DB`): each table is a list of rows in insertion order,
and the SQLite `AUTOINCREMENT` row ids are modelled by counters.  Calls
to `datetime.now()` are modelled by a logical clock that advances on each
read.  The OpenAI completion call is abstracted as a `Gateway` oracle:
a function from (system prompt, user content) to `Option String`, where
`none` stands for the call raising an exception and `some raw` for a
successful response with message content `raw`.
-/

/-- A row of the `chats` table: `id INTEGER PRIMARY KEY AUTOINCREMENT`,
`title TEXT`, `created_at TEXT` (modelled as a logical-clock value). -/
structure ChatRow where
  id : Int
  title : String
  created_at : Nat
deriving DecidableEq

/-- A row of the `messages` table: `id INTEGER PRIMARY KEY AUTOINCREMENT`,
`chat_id INTEGER`, `sender TEXT`, `text TEXT`, `timestamp TEXT`. -/
structure MessageRow where
  id : Int
  chat_id : Int
  sender : String
  text : String
  timestamp : Nat
deriving DecidableEq

/-- The database state: both tables in insertion order, the `AUTOINCREMENT`
counters for the next row ids, and a logical clock for `datetime.now()`. -/
structure DB where
  chats : List ChatRow
  messages : List MessageRow
  nextChatId : Int
  nextMsgId : Int
  clock : Nat
deriving DecidableEq

/-- The freshly initialised database (`init_db` creates the two empty
tables; SQLite `AUTOINCREMENT` starts row ids at 1). -/
def DB.init : DB := ⟨[], [], 1, 1, 0⟩

/-- Python's `x or default` on strings: the empty string is falsy. -/
def pyOr (s d : String) : String := if s = "" then d else s

/-- The completion-gateway oracle: system prompt and user content in, raw
reply content out; `none` models the provider call raising an exception. -/
def Gateway : Type := String → String → Option String

/-- `save_message(chat_id, sender, text)`: inserts one `messages` row with
the current timestamp.  There is no check that `chat_id` refers to an
existing chat. -/
def save_message (st : DB) (chat_id : Int) (sender text : String) : DB :=
  { st with
    messages := st.messages ++ [⟨st.nextMsgId, chat_id, sender, text, st.clock⟩]
    nextMsgId := st.nextMsgId + 1
    clock := st.clock + 1 }

/-- `POST /api/chat/new`: inserts a chat row with title `"New Chat"` and the
current timestamp, and returns the generated id (`cur.lastrowid`). -/
def create_chat (st : DB) : DB × Int :=
  ({ st with
      chats := st.chats ++ [⟨st.nextChatId, "New Chat", st.clock⟩]
      nextChatId := st.nextChatId + 1
      clock := st.clock + 1 },
   st.nextChatId)

/-- `GET /api/chat/list`: `SELECT id, title, created_at FROM chats ORDER BY
id DESC`, with the Python-side fallback `r["title"] or "New Chat"`. -/
def list_chats (st : DB) : List ChatRow :=
  (st.chats.mergeSort (fun a b => decide (b.id ≤ a.id))).map
    (fun r => { r with title := pyOr r.title "New Chat" })

/-- `GET /api/chat/{chat_id}/messages`: `SELECT ... FROM messages WHERE
chat_id = ? ORDER BY id ASC`. -/
def get_chat_messages (st : DB) (chat_id : Int) : List MessageRow :=
  (st.messages.filter (fun m => decide (m.chat_id = chat_id))).mergeSort
    (fun a b => decide (a.id ≤ b.id))

/-- `DELETE /api/chat/{chat_id}/delete`: `DELETE FROM messages WHERE
chat_id = ?` then `DELETE FROM chats WHERE id = ?`; always responds
`{"status": "deleted"}`. -/
def delete_chat (st : DB) (chat_id : Int) : DB × String :=
  ({ st with
      messages := st.messages.filter (fun m => decide (m.chat_id ≠ chat_id))
      chats := st.chats.filter (fun c => decide (c.id ≠ chat_id)) },
   "deleted")

/-- `UPDATE chats SET title = ? WHERE id = ?`: rewrites the title of every
row whose id matches; a no-op when no row matches. -/
def set_title (st : DB) (chat_id : Int) (title : String) : DB :=
  { st with
    chats := st.chats.map
      (fun c => if c.id = chat_id then { c with title := title } else c) }

/-- The system prompt of the title-generation call. -/
def titleSystemPrompt : String :=
  "Generate a short, clean chat title (max 5 words) summarizing the user's message. Return only the title."

/-- An HTTP error response (`HTTPException(status_code, detail)`). -/
structure HTTPError where
  status : Nat
  detail : String
deriving DecidableEq

/-- `POST /api/chat/title` (`generate_title`).  The request body is a free
dict, so `chat_id` and `message` are each `Option`-valued as in
`data.get(...)`.  `if not chat_id` tests Python truthiness: absent (`none`)
and the integer `0` both fail it.  The gateway call is wrapped in
`try/except`: on exception (`gw ... = none`) or on a reply that strips to
the empty string, the title falls back to the literal `"Conversation"`.
The resulting title is then stored unconditionally via the SQL `UPDATE`. -/
def generate_title (gw : Gateway) (st : DB) (chatIdField : Option Int)
    (messageField : Option String) : DB × Except HTTPError String :=
  let user_message := messageField.getD ""
  match chatIdField with
  | none => (st, Except.error ⟨400, "chat_id required"⟩)
  | some chat_id =>
    if chat_id = 0 then (st, Except.error ⟨400, "chat_id required"⟩)
    else
      let title :=
        match gw titleSystemPrompt user_message with
        | some raw => let t := raw.trim; if t = "" then "Conversation" else t
        | none => "Conversation"
      (set_title st chat_id title, Except.ok title)

/-- `call_chat_model(system_prompt, user_text)`: wraps the user text as
`"User message: {user_text}"`, calls the completion API and strips the
reply; `none` models the provider exception propagating. -/
def call_chat_model (gw : Gateway) (system_prompt user_text : String) :
    Option String :=
  (gw system_prompt ("User message: " ++ user_text)).map String.trim

/-- The common body of the five persona chat endpoints: save the user
message, call the model with the persona's system prompt, save the bot
reply, return the reply.  A gateway failure (`none`) happens after the
user message is saved and before the bot message is saved; the exception
propagates (`none` in the result). -/
def chat_endpoint (system_prompt : String) (gw : Gateway) (st : DB)
    (chat_id : Int) (message : String) : DB × Option String :=
  let user_msg := pyOr message ""
  let st1 := save_message st chat_id "user" user_msg
  match call_chat_model gw system_prompt user_msg with
  | none => (st1, none)
  | some ai_reply => (save_message st1 chat_id "bot" ai_reply, some ai_reply)

def realEstatePrompt : String :=
  "You are a professional and friendly real estate assistant. Provide clear, structured answers using short headings, bullet points, and short paragraphs. Keep tone helpful and respectful. Avoid markdown symbols like ** or ###."

def studentMentorPrompt : String :=
  "You are a friendly and knowledgeable student mentor. Help with studies, exams, career guidance and productivity. Use bullet points and short paragraphs. Keep a warm, motivating tone."

def fitnessCoachPrompt : String :=
  "You are a certified fitness coach and nutrition expert. Give workout plans, diet advice, and practical tips. Format answers with steps and bullet points."

def restaurantPrompt : String :=
  "You are a friendly restaurant and culinary assistant. Help with recipes, menu ideas, cooking instructions, and operations. Format with clear short sections and bullet points."

def travelPlannerPrompt : String :=
  "You are a helpful travel planner assistant. Suggest itineraries, budgets, places to visit and packing tips. Structure answers with headings, bullet points and short paragraphs."

/-- `POST /api/real-estate/chat`. -/
def chat_real_estate : Gateway → DB → Int → String → DB × Option String :=
  chat_endpoint realEstatePrompt

/-- `POST /api/student-mentor/chat`. -/
def chat_student_mentor : Gateway → DB → Int → String → DB × Option String :=
  chat_endpoint studentMentorPrompt

/-- `POST /api/fitness-coach/chat`. -/
def chat_fitness_coach : Gateway → DB → Int → String → DB × Option String :=
  chat_endpoint fitnessCoachPrompt

/-- `POST /api/restaurant/chat`. -/
def chat_restaurant : Gateway → DB → Int → String → DB × Option String :=
  chat_endpoint restaurantPrompt

/-- `POST /api/travel-planner/chat`. -/
def chat_travel_planner : Gateway → DB → Int → String → DB × Option String :=
  chat_endpoint travelPlannerPrompt

/-- The five persona endpoints, in route order. -/
def personaHandlers : List (Gateway → DB → Int → String → DB × Option String) :=
  [chat_real_estate, chat_student_mentor, chat_fitness_coach,
   chat_restaurant, chat_travel_planner]

/-- Well-formedness of a database state: each table is strictly ascending
in row id (SQLite `AUTOINCREMENT` assigns increasing ids to successive
inserts) and every present id is below the corresponding counter. -/
def WF (st : DB) : Prop :=
  st.chats.Pairwise (fun a b => a.id < b.id) ∧
  (∀ c ∈ st.chats, c.id < st.nextChatId) ∧
  st.messages.Pairwise (fun a b => a.id < b.id) ∧
  (∀ m ∈ st.messages, m.id < st.nextMsgId)

instance (st : DB) : Decidable (WF st) := by
  unfold WF; infer_instance

/-! ## Library-level helper lemmas -/

/-- A list that is strictly ascending in a key is unchanged by sorting
with the key's non-strict `≤`. -/
lemma mergeSort_asc_of_pairwise (l : List MessageRow)
    (h : l.Pairwise (fun a b => a.id < b.id)) :
    l.mergeSort (fun a b => decide (a.id ≤ b.id)) = l :=
  List.mergeSort_of_sorted (h.imp fun hab => by simpa using le_of_lt hab)

/-- Sorting a strictly-ascending chat list by descending id reverses it. -/
lemma mergeSort_desc_eq_reverse (l : List ChatRow)
    (h : l.Pairwise (fun a b => a.id < b.id)) :
    l.mergeSort (fun a b => decide (b.id ≤ a.id)) = l.reverse := by
  haveI : IsAntisymm ChatRow (fun a b => b.id < a.id) :=
    ⟨fun a b h1 h2 => absurd (h1.trans h2) (lt_irrefl _)⟩
  have hperm : (l.mergeSort (fun a b => decide (b.id ≤ a.id))).Perm l.reverse :=
    (List.mergeSort_perm l _).trans l.reverse_perm.symm
  have hne : l.Pairwise (fun a b : ChatRow => a.id ≠ b.id) :=
    h.imp fun hab => ne_of_lt hab
  have hne2 : (l.mergeSort (fun a b => decide (b.id ≤ a.id))).Pairwise
      (fun a b : ChatRow => a.id ≠ b.id) :=
    (List.Perm.pairwise_iff (fun hxy => Ne.symm hxy) (List.mergeSort_perm l _)).mpr hne
  have hsorted : (l.mergeSort (fun a b => decide (b.id ≤ a.id))).Pairwise
      (fun a b => decide (b.id ≤ a.id) = true) :=
    List.sorted_mergeSort
      (by intro a b c h1 h2; simp at *; omega)
      (by intro a b; simp [Int.le_total]) l
  have hstrict : (l.mergeSort (fun a b => decide (b.id ≤ a.id))).Pairwise
      (fun a b : ChatRow => b.id < a.id) :=
    (hsorted.and hne2).imp fun h12 =>
      lt_of_le_of_ne (by simpa using h12.1) (Ne.symm h12.2)
  have hrev : l.reverse.Pairwise (fun a b : ChatRow => b.id < a.id) :=
    List.pairwise_reverse.mpr h
  exact List.eq_of_perm_of_sorted hperm hstrict hrev

/-- `find?` commutes with a filter whose test is implied by the search
predicate. -/
lemma find?_filter_of_imp {α : Type} {p q : α → Bool}
    (l : List α) (h : ∀ a, p a = true → q a = true) :
    (l.filter q).find? p = l.find? p := by
  induction l with
  | nil => rfl
  | cons a t ih =>
    by_cases hq : q a = true
    · rw [List.filter_cons_of_pos hq]
      by_cases hp : p a = true
      · rw [List.find?_cons_of_pos _ hp, List.find?_cons_of_pos _ hp]
      · rw [List.find?_cons_of_neg _ (by simpa using hp),
            List.find?_cons_of_neg _ (by simpa using hp), ih]
    · have hp : p a = false := by
        cases hpa : p a
        · rfl
        · exact absurd (h a hpa) hq
      rw [List.filter_cons_of_neg (by simpa using hq),
          List.find?_cons_of_neg _ (by simp [hp]), ih]

/-! ## State invariants -/

/-- `save_message` preserves well-formedness. -/
lemma WF_save_message (st : DB) (c : Int) (s t : String) (h : WF st) :
    WF (save_message st c s t) := by
  obtain ⟨h1, h2, h3, h4⟩ := h
  refine ⟨h1, h2, ?_, ?_⟩
  · simp only [save_message]
    rw [List.pairwise_append]
    refine ⟨h3, by simp, ?_⟩
    intro a ha b hb
    simp only [List.mem_singleton] at hb
    subst hb
    exact h4 a ha
  · intro m hm
    simp only [save_message, List.mem_append, List.mem_singleton] at hm
    rcases hm with hm | hm
    · exact lt_trans (h4 m hm) (lt_add_one _)
    · subst hm; exact lt_add_one _

/-- `create_chat` preserves well-formedness. -/
lemma WF_create_chat (st : DB) (h : WF st) : WF (create_chat st).1 := by
  obtain ⟨h1, h2, h3, h4⟩ := h
  refine ⟨?_, ?_, h3, h4⟩
  · simp only [create_chat]
    rw [List.pairwise_append]
    refine ⟨h1, by simp, ?_⟩
    intro a ha b hb
    simp only [List.mem_singleton] at hb
    subst hb
    exact h2 a ha
  · intro r hr
    simp only [create_chat, List.mem_append, List.mem_singleton] at hr
    rcases hr with hr | hr
    · exact lt_trans (h2 r hr) (lt_add_one _)
    · subst hr; exact lt_add_one _

/-- Under `WF`, the `ORDER BY id ASC` in `get_chat_messages` is the
identity: the result is the filtered message list in table order. -/
lemma get_chat_messages_eq_filter (st : DB) (c : Int) (h : WF st) :
    get_chat_messages st c
      = st.messages.filter (fun m => decide (m.chat_id = c)) := by
  unfold get_chat_messages
  exact mergeSort_asc_of_pairwise _
    (List.Pairwise.sublist (List.filter_sublist _) h.2.2.1)

/-- Under `WF`, `list_chats` lists the chats table in reverse insertion
order (descending id). -/
lemma list_chats_eq_reverse (st : DB) (h : WF st) :
    list_chats st
      = st.chats.reverse.map (fun r => { r with title := pyOr r.title "New Chat" }) := by
  unfold list_chats
  rw [mergeSort_desc_eq_reverse st.chats h.1]

/-- `msg.message or ""` is the identity on strings. -/
lemma pyOr_empty_default (s : String) : pyOr s "" = s := by
  by_cases h : s = "" <;> simp [pyOr, h]

/-- Behaviour of the shared persona-chat body: on gateway success the
user row and then the bot row are appended; on gateway failure only the
user row is appended. -/
lemma chat_endpoint_messages (p : String) (gw : Gateway) (st : DB)
    (c : Int) (m : String) :
    (∀ r, (chat_endpoint p gw st c m).2 = some r →
      (chat_endpoint p gw st c m).1.messages
        = st.messages ++ [⟨st.nextMsgId, c, "user", m, st.clock⟩,
                          ⟨st.nextMsgId + 1, c, "bot", r, st.clock + 1⟩])
    ∧ ((chat_endpoint p gw st c m).2 = none →
      (chat_endpoint p gw st c m).1.messages
        = st.messages ++ [⟨st.nextMsgId, c, "user", m, st.clock⟩]) := by
  simp only [chat_endpoint, pyOr_empty_default]
  cases hgw : call_chat_model gw p m with
  | none => exact ⟨fun r hr => by simp at hr, fun _ => by simp [save_message]⟩
  | some reply =>
    constructor
    · intro r hr
      simp only [Option.some.injEq] at hr
      subst hr
      simp [save_message]
    · intro hr
      simp at hr

/-- Concrete evaluation of `String.trim` on `"ok"` (the auxiliary
functions recurse on byte positions, so we unfold them one step). -/
lemma trim_ok : "ok".trim = "ok" := by
  have h1 : Substring.takeWhileAux "ok" ⟨2⟩ Char.isWhitespace ⟨0⟩ = ⟨0⟩ := by
    rw [Substring.takeWhileAux]; decide
  have h2 : Substring.takeRightWhileAux "ok" ⟨0⟩ Char.isWhitespace ⟨2⟩ = ⟨2⟩ := by
    rw [Substring.takeRightWhileAux]; decide
  show (Substring.trim ⟨"ok", ⟨0⟩, ⟨2⟩⟩).toString = "ok"
  rw [Substring.trim, h1, h2]
  decide

/-- Concrete evaluation of `String.trim` on `"Alpha"`. -/
lemma trim_Alpha : "Alpha".trim = "Alpha" := by
  have h1 : Substring.takeWhileAux "Alpha" ⟨5⟩ Char.isWhitespace ⟨0⟩ = ⟨0⟩ := by
    rw [Substring.takeWhileAux]; decide
  have h2 : Substring.takeRightWhileAux "Alpha" ⟨0⟩ Char.isWhitespace ⟨5⟩ = ⟨5⟩ := by
    rw [Substring.takeRightWhileAux]; decide
  show (Substring.trim ⟨"Alpha", ⟨0⟩, ⟨5⟩⟩).toString = "Alpha"
  rw [Substring.trim, h1, h2]
  decide

/-- Concrete evaluation of `String.trim` on `"Beta"`. -/
lemma trim_Beta : "Beta".trim = "Beta" := by
  have h1 : Substring.takeWhileAux "Beta" ⟨4⟩ Char.isWhitespace ⟨0⟩ = ⟨0⟩ := by
    rw [Substring.takeWhileAux]; decide
  have h2 : Substring.takeRightWhileAux "Beta" ⟨0⟩ Char.isWhitespace ⟨4⟩ = ⟨4⟩ := by
    rw [Substring.takeRightWhileAux]; decide
  show (Substring.trim ⟨"Beta", ⟨0⟩, ⟨4⟩⟩).toString = "Beta"
  rw [Substring.trim, h1, h2]
  decide

/-- Concrete evaluation of `String.trim` on the empty string. -/
lemma trim_nil : "".trim = "" := by
  have h1 : Substring.takeWhileAux "" ⟨0⟩ Char.isWhitespace ⟨0⟩ = ⟨0⟩ := by
    rw [Substring.takeWhileAux]; decide
  have h2 : Substring.takeRightWhileAux "" ⟨0⟩ Char.isWhitespace ⟨0⟩ = ⟨0⟩ := by
    rw [Substring.takeRightWhileAux]; decide
  show (Substring.trim ⟨"", ⟨0⟩, ⟨0⟩⟩).toString = ""
  rw [Substring.trim, h1, h2]
  decide

/-- Claim C1: for every persona chat call (any of the five persona
endpoints) on chat id `c`, if the gateway call succeeds exactly two new
message rows are persisted for `c` — first sender `"user"` with the
request message, then sender `"bot"` with the returned reply; if the
gateway call fails, exactly one new row (sender `"user"`) is persisted
and the bot message is never persisted. -/
theorem persona_chat_message_persistence :
    ∀ e ∈ personaHandlers, ∀ (gw : Gateway) (st : DB) (c : Int) (m : String),
    (∀ r, (e gw st c m).2 = some r →
      (e gw st c m).1.messages
        = st.messages ++ [⟨st.nextMsgId, c, "user", m, st.clock⟩,
                          ⟨st.nextMsgId + 1, c, "bot", r, st.clock + 1⟩])
    ∧ ((e gw st c m).2 = none →
      (e gw st c m).1.messages
        = st.messages ++ [⟨st.nextMsgId, c, "user", m, st.clock⟩]) := by
  intro e he gw st c m
  simp only [personaHandlers, List.mem_cons, List.not_mem_nil, or_false] at he
  rcases he with rfl | rfl | rfl | rfl | rfl <;>
    exact chat_endpoint_messages _ gw st c m

/-- Concrete instance of `persona_chat_message_persistence`: the real
estate endpoint with a gateway that replies `"ok"` on a fresh database. -/
theorem persona_chat_message_persistence_witness :
    (chat_real_estate (fun _ _ => some "ok") DB.init 1 "hi").1.messages
      = [⟨1, 1, "user", "hi", 0⟩, ⟨2, 1, "bot", "ok", 1⟩] := by
  have h := (persona_chat_message_persistence chat_real_estate
      (by simp [personaHandlers]) (fun _ _ => some "ok") DB.init 1 "hi").1
      "ok" (by rw [show (chat_real_estate (fun _ _ => some "ok") DB.init 1 "hi").2
            = some ("ok".trim) from rfl, trim_ok])
  simpa [DB.init] using h

/-- A sequence of `save_message` calls on chat `c` (sender/text pairs, in
order). -/
def appendMessages (st : DB) (c : Int) (ps : List (String × String)) : DB :=
  ps.foldl (fun s p => save_message s c p.1 p.2) st

/-- `appendMessages` preserves well-formedness. -/
lemma WF_appendMessages (c : Int) :
    ∀ (ps : List (String × String)) (st : DB), WF st →
      WF (appendMessages st c ps) := by
  intro ps
  induction ps with
  | nil => intro st h; exact h
  | cons p ps ih =>
    intro st h
    exact ih (save_message st c p.1 p.2) (WF_save_message st c p.1 p.2 h)

/-- Filtering for chat `c` after one `save_message` to `c` appends
exactly the new row. -/
lemma filter_save_message (st : DB) (c : Int) (s t : String) :
    (save_message st c s t).messages.filter (fun m => decide (m.chat_id = c))
      = st.messages.filter (fun m => decide (m.chat_id = c))
        ++ [⟨st.nextMsgId, c, s, t, st.clock⟩] := by
  simp [save_message, List.filter_append]

/-- The sender/text projection of `get_chat_messages` after a batch of
appends is the old projection followed by the appended pairs, in order. -/
lemma appendMessages_proj (c : Int) :
    ∀ (ps : List (String × String)) (st : DB), WF st →
    (get_chat_messages (appendMessages st c ps) c).map (fun m => (m.sender, m.text))
      = (get_chat_messages st c).map (fun m => (m.sender, m.text)) ++ ps := by
  intro ps
  induction ps with
  | nil => intro st h; simp [appendMessages]
  | cons p ps ih =>
    intro st h
    have hwf1 : WF (save_message st c p.1 p.2) := WF_save_message st c p.1 p.2 h
    have hstep : appendMessages st c (p :: ps)
        = appendMessages (save_message st c p.1 p.2) c ps := rfl
    rw [hstep, ih _ hwf1, get_chat_messages_eq_filter _ _ hwf1,
        get_chat_messages_eq_filter _ _ h, filter_save_message]
    simp

/-- Claim C2: for every chat id `c` and every sequence of `N` messages
appended to `c`, `get_chat_messages c` returns exactly those `N` entries
in the order they were appended (and in ascending insertion id); for a
chat id with no messages (unknown included) it returns the empty
sequence, with no error path. -/
theorem getMessages_returns_appended_in_order (st : DB) (c : Int)
    (ps : List (String × String)) (h : WF st) :
    ((get_chat_messages (appendMessages st c ps) c).map (fun m => (m.sender, m.text))
        = (get_chat_messages st c).map (fun m => (m.sender, m.text)) ++ ps)
    ∧ (get_chat_messages (appendMessages st c ps) c).Pairwise (fun a b => a.id < b.id)
    ∧ ((∀ m ∈ st.messages, m.chat_id ≠ c) → get_chat_messages st c = []) := by
  refine ⟨appendMessages_proj c ps st h, ?_, ?_⟩
  · have hwf : WF (appendMessages st c ps) := WF_appendMessages c ps st h
    rw [get_chat_messages_eq_filter _ _ hwf]
    exact List.Pairwise.sublist (List.filter_sublist _) hwf.2.2.1
  · intro hnone
    rw [get_chat_messages_eq_filter st c h]
    refine List.filter_eq_nil_iff.mpr ?_
    intro a ha
    simpa using hnone a ha

/-- Concrete instance of `getMessages_returns_appended_in_order`: two
messages appended to chat 1 of a fresh database come back in order. -/
theorem getMessages_returns_appended_in_order_witness :
    (get_chat_messages (appendMessages DB.init 1 [("user", "hi"), ("bot", "yo")]) 1).map
        (fun m => (m.sender, m.text)) = [("user", "hi"), ("bot", "yo")] := by
  have h := (getMessages_returns_appended_in_order DB.init 1
      [("user", "hi"), ("bot", "yo")] (by decide)).1
  simpa [get_chat_messages, DB.init] using h

/-- Every chat row with the updated id holds the new title after
`set_title`. -/
lemma set_title_stored (st : DB) (c : Int) (t : String) :
    ∀ r ∈ (set_title st c t).chats, r.id = c → r.title = t := by
  intro r hr hid
  simp only [set_title, List.mem_map] at hr
  obtain ⟨a, ha, heq⟩ := hr
  by_cases h : a.id = c
  · rw [← heq]; simp [h]
  · rw [← heq] at hid
    simp [h] at hid

/-- Claim C3: when the title-generation gateway call fails, the handler
does not abort: it returns the literal fallback title `"Conversation"`,
and any stored chat row with the requested id (if the chat exists) holds
that same fallback title afterwards. -/
theorem title_gateway_failure_fallback (gw : Gateway) (st : DB) (cid : Int)
    (m : Option String) (hcid : cid ≠ 0)
    (hgw : gw titleSystemPrompt (m.getD "") = none) :
    generate_title gw st (some cid) m
        = (set_title st cid "Conversation", Except.ok "Conversation")
    ∧ ∀ r ∈ (generate_title gw st (some cid) m).1.chats,
        r.id = cid → r.title = "Conversation" := by
  have h1 : generate_title gw st (some cid) m
      = (set_title st cid "Conversation", Except.ok "Conversation") := by
    simp [generate_title, hcid, hgw]
  refine ⟨h1, ?_⟩
  rw [h1]
  exact set_title_stored st cid "Conversation"

/-- Concrete instance of `title_gateway_failure_fallback`: a failing
gateway on a one-chat database stores and returns the fallback title. -/
theorem title_gateway_failure_fallback_witness :
    generate_title (fun _ _ => none) (create_chat DB.init).1 (some 1) (some "hello")
        = (set_title (create_chat DB.init).1 1 "Conversation", Except.ok "Conversation")
    ∧ (set_title (create_chat DB.init).1 1 "Conversation").chats
        = [⟨1, "Conversation", 0⟩] := by
  refine ⟨(title_gateway_failure_fallback (fun _ _ => none) (create_chat DB.init).1
      1 (some "hello") (by decide) rfl).1, by decide⟩

/-- Claim C7: operations referencing a nonexistent chat id never error:
`save_message` appends its row unconditionally (dangling `chat_id`
accepted silently), and `set_title` via the SQL `UPDATE` is a silent
no-op when no chat row has the id. -/
theorem dangling_chat_id_never_errors (st : DB) (c : Int) (s t ti : String) :
    ((save_message st c s t).messages
        = st.messages ++ [⟨st.nextMsgId, c, s, t, st.clock⟩])
    ∧ ((∀ r ∈ st.chats, r.id ≠ c) → set_title st c ti = st) := by
  refine ⟨rfl, ?_⟩
  intro h
  have hmap : st.chats.map
      (fun r => if r.id = c then { r with title := ti } else r) = st.chats := by
    rw [List.map_congr_left (g := fun a => a) (fun a ha => by simp [h a ha])]
    exact List.map_id' st.chats
  simp only [set_title, hmap]

/-- Concrete instance of `dangling_chat_id_never_errors`: updating the
title of the absent chat 7 on a fresh one-chat database changes nothing. -/
theorem dangling_chat_id_never_errors_witness :
    set_title (create_chat DB.init).1 7 "ghost" = (create_chat DB.init).1 :=
  (dangling_chat_id_never_errors (create_chat DB.init).1 7 "s" "t" "ghost").2
    (by decide)

/-- Claim C8: a title-generation request without a `chat_id` field is
rejected with the 400 `"chat_id required"` error, the stored state is
unchanged, and the gateway is never consulted (the outcome is the same
for every gateway). -/
theorem title_missing_chat_id_rejected (gw gw' : Gateway) (st : DB)
    (m : Option String) :
    generate_title gw st none m = (st, Except.error ⟨400, "chat_id required"⟩)
    ∧ generate_title gw st none m = generate_title gw' st none m :=
  ⟨rfl, rfl⟩

/-- Claim C9: a `chat_id` field that is present but falsy (the integer 0)
is rejected exactly like an absent one — the handler tests truthiness of
the value, not presence of the field — again without touching state or
the gateway. -/
theorem title_falsy_chat_id_rejected (gw gw' : Gateway) (st : DB)
    (m : Option String) :
    generate_title gw st (some 0) m = (st, Except.error ⟨400, "chat_id required"⟩)
    ∧ generate_title gw st (some 0) m = generate_title gw st none m
    ∧ generate_title gw st (some 0) m = generate_title gw' st (some 0) m :=
  ⟨rfl, rfl, rfl⟩

/-- Claim C10: if the title-generation gateway call succeeds but the
reply strips to the empty string, the handler substitutes the same fixed
fallback title `"Conversation"` used on gateway failure; and the title it
returns (which is also what it stores for the requested chat) is never
the empty string. -/
theorem title_empty_reply_fallback (gw : Gateway) (st : DB) (cid : Int)
    (m : Option String) (hcid : cid ≠ 0) :
    (∀ raw, gw titleSystemPrompt (m.getD "") = some raw → raw.trim = "" →
      generate_title gw st (some cid) m
        = (set_title st cid "Conversation", Except.ok "Conversation"))
    ∧ (∀ t, (generate_title gw st (some cid) m).2 = Except.ok t →
        t ≠ "" ∧ ∀ r ∈ (generate_title gw st (some cid) m).1.chats,
          r.id = cid → r.title = t) := by
  constructor
  · intro raw hgw htrim
    simp [generate_title, hcid, hgw, htrim]
  · intro t ht
    cases hgw : gw titleSystemPrompt (m.getD "") with
    | none =>
      simp [generate_title, hcid, hgw] at ht
      subst ht
      exact ⟨by decide, by
        simp only [generate_title, hcid, hgw, if_neg hcid]
        exact set_title_stored st cid "Conversation"⟩
    | some raw =>
      by_cases htr : raw.trim = ""
      · simp [generate_title, hcid, hgw, htr] at ht
        subst ht
        exact ⟨by decide, by
          simp only [generate_title, hcid, hgw, if_neg hcid, htr, if_pos rfl]
          exact set_title_stored st cid "Conversation"⟩
      · simp [generate_title, hcid, hgw, htr] at ht
        subst ht
        exact ⟨htr, by
          simp only [generate_title, hcid, hgw, if_neg hcid, if_neg htr]
          exact set_title_stored st cid raw.trim⟩

/-- Concrete instance of `title_empty_reply_fallback`: a gateway reply of
`""` (strips to empty) on a one-chat database yields the fallback title. -/
theorem title_empty_reply_fallback_witness :
    generate_title (fun _ _ => some "") (create_chat DB.init).1 (some 1) (some "hi")
      = (set_title (create_chat DB.init).1 1 "Conversation", Except.ok "Conversation") :=
  (title_empty_reply_fallback (fun _ _ => some "") (create_chat DB.init).1 1
      (some "hi") (by decide)).1 "" rfl trim_nil

/-- Claim C4: `delete_chat c` removes all messages with `chat_id = c` and
the chat row `c`, so afterwards `list_chats` excludes `c` and
`get_chat_messages c` is empty; it is idempotent — on a nonexistent
(or already-deleted) id it succeeds with no effect and no error, and a
second delete leaves the state of the first. -/
theorem delete_chat_removes_and_idempotent (st : DB) (c : Int) :
    (∀ r ∈ list_chats (delete_chat st c).1, r.id ≠ c)
    ∧ get_chat_messages (delete_chat st c).1 c = []
    ∧ delete_chat (delete_chat st c).1 c = ((delete_chat st c).1, "deleted")
    ∧ ((∀ r ∈ st.chats, r.id ≠ c) → (∀ mm ∈ st.messages, mm.chat_id ≠ c) →
        delete_chat st c = (st, "deleted")) := by
  refine ⟨?_, ?_, ?_, ?_⟩
  · intro r hr
    simp only [list_chats, List.mem_map, List.mem_mergeSort] at hr
    obtain ⟨a, ha, heq⟩ := hr
    simp only [delete_chat, List.mem_filter] at ha
    have : r.id = a.id := by rw [← heq]
    rw [this]
    simpa using ha.2
  · have hnil : (delete_chat st c).1.messages.filter
        (fun m => decide (m.chat_id = c)) = [] := by
      refine List.filter_eq_nil_iff.mpr ?_
      intro a ha
      simp only [delete_chat, List.mem_filter] at ha
      have := ha.2
      simp at this ⊢
      exact this
    simp only [get_chat_messages]
    rw [hnil]
    simp
  · simp only [delete_chat, List.filter_filter]
    simp
  · intro hch hmsg
    have hm : st.messages.filter (fun m => decide (m.chat_id ≠ c)) = st.messages :=
      List.filter_eq_self.mpr (fun a ha => by simpa using hmsg a ha)
    have hc : st.chats.filter (fun r => decide (r.id ≠ c)) = st.chats :=
      List.filter_eq_self.mpr (fun a ha => by simpa using hch a ha)
    simp only [delete_chat, hm, hc]

/-- Concrete instance of `delete_chat_removes_and_idempotent`: deleting
the nonexistent chat 5 on a fresh one-chat database is a no-op. -/
theorem delete_chat_removes_and_idempotent_witness :
    delete_chat (create_chat DB.init).1 5 = ((create_chat DB.init).1, "deleted") :=
  (delete_chat_removes_and_idempotent (create_chat DB.init).1 5).2.2.2
    (by decide) (by decide)

/-- Claim C5: `list_chats` returns all existing chats ordered
most-recently-created first (descending id, i.e. reverse insertion
order), the empty sequence when none exist, and after `create_chat` the
new id heads the listing with the default title `"New Chat"`, before
every previously created chat. -/
theorem list_chats_desc_order_and_create (st : DB) (h : WF st) :
    (list_chats st
      = st.chats.reverse.map (fun r => { r with title := pyOr r.title "New Chat" }))
    ∧ (st.chats = [] → list_chats st = [])
    ∧ list_chats (create_chat st).1
        = ⟨(create_chat st).2, "New Chat", st.clock⟩ :: list_chats st := by
  have h1 := list_chats_eq_reverse st h
  refine ⟨h1, ?_, ?_⟩
  · intro he
    rw [h1, he]
    rfl
  · have h2 := list_chats_eq_reverse (create_chat st).1 (WF_create_chat st h)
    rw [h2, h1]
    simp only [create_chat, List.reverse_append, List.reverse_cons,
      List.reverse_nil, List.nil_append, List.singleton_append, List.map_cons]
    congr 1

/-- Concrete instance of `list_chats_desc_order_and_create`: creating the
first chat on a fresh database lists exactly it, with the default title. -/
theorem list_chats_desc_order_and_create_witness :
    list_chats (create_chat DB.init).1 = [⟨1, "New Chat", 0⟩] := by
  have h := (list_chats_desc_order_and_create DB.init (by decide)).2.2
  rw [h]
  simp [list_chats, DB.init, create_chat]

/-- The five persona system prompts, in route order. -/
def personaPrompts : List String :=
  [realEstatePrompt, studentMentorPrompt, fitnessCoachPrompt,
   restaurantPrompt, travelPlannerPrompt]

/-- One state-relevant API operation of the system.  Each operation that
consults the completion gateway carries the gateway's behaviour for that
single call as the raw reply (`none` = provider exception).  The
read-only endpoints are listed for completeness; they do not change the
state. -/
inductive Op where
  | createChat : Op
  | generateTitle (gwReply : Option String) (chatIdField : Option Int)
      (messageField : Option String) : Op
  | listChats : Op
  | getMessages (chatId : Int) : Op
  | deleteChat (chatId : Int) : Op
  | personaChat (persona : Nat) (gwReply : Option String) (chatId : Int)
      (message : String) : Op
deriving DecidableEq

/-- The state transition of one operation. -/
def step (st : DB) : Op → DB
  | Op.createChat => (create_chat st).1
  | Op.generateTitle r cid m => (generate_title (fun _ _ => r) st cid m).1
  | Op.listChats => st
  | Op.getMessages _ => st
  | Op.deleteChat c => (delete_chat st c).1
  | Op.personaChat i r c m =>
      (chat_endpoint (personaPrompts.getD i "") (fun _ _ => r) st c m).1

/-- The stored title of chat `c`, or `none` when no chat row has id `c`. -/
def titleOf (st : DB) (c : Int) : Option String :=
  (st.chats.find? (fun r => decide (r.id = c))).map ChatRow.title

/-- How many operations of a run change the stored title of an existing
chat `c` (creation and deletion of the row itself do not count). -/
def countTitleUpdates (c : Int) : DB → List Op → Nat
  | _, [] => 0
  | st, op :: ops =>
    (if titleOf st c ≠ none ∧ titleOf (step st op) c ≠ none
        ∧ titleOf (step st op) c ≠ titleOf st c
      then 1 else 0) + countTitleUpdates c (step st op) ops

/-- Claim C6 (counterexample): it is not true that over every operation
sequence of the system the stored title of a chat is updated at most
once — two title-generation calls with different gateway replies update
the same chat's title twice. -/
theorem title_updated_at_most_once_counterexample :
    ¬ (∀ (ops : List Op) (c : Int), countTitleUpdates c DB.init ops ≤ 1) := by
  intro hall
  have h := hall [Op.createChat,
      Op.generateTitle (some "Alpha") (some 1) (some "x"),
      Op.generateTitle (some "Beta") (some 1) (some "x")] 1
  have e1 : step DB.init Op.createChat
      = ⟨[⟨1, "New Chat", 0⟩], [], 2, 1, 1⟩ := by decide
  have e2 : step (⟨[⟨1, "New Chat", 0⟩], [], 2, 1, 1⟩ : DB)
      (Op.generateTitle (some "Alpha") (some 1) (some "x"))
      = ⟨[⟨1, "Alpha", 0⟩], [], 2, 1, 1⟩ := by
    simp [step, generate_title, set_title, trim_Alpha]
  have e3 : step (⟨[⟨1, "Alpha", 0⟩], [], 2, 1, 1⟩ : DB)
      (Op.generateTitle (some "Beta") (some 1) (some "x"))
      = ⟨[⟨1, "Beta", 0⟩], [], 2, 1, 1⟩ := by
    simp [step, generate_title, set_title, trim_Beta]
  simp only [countTitleUpdates] at h
  rw [e1] at h
  rw [e2] at h
  rw [e3] at h
  exact absurd h (by decide)

/-- `create_chat` does not change the title of any already-existing chat. -/
lemma titleOf_create (st : DB) (c : Int) (h : titleOf st c ≠ none) :
    titleOf (create_chat st).1 c = titleOf st c := by
  unfold titleOf at *
  cases hf : st.chats.find? (fun r => decide (r.id = c)) with
  | none => rw [hf] at h; simp at h
  | some r =>
    simp only [create_chat, List.find?_append, hf]
    rfl

/-- `delete_chat d` either leaves the title of chat `c` unchanged
(`c ≠ d`) or removes the row (`c = d`). -/
lemma titleOf_delete (st : DB) (c d : Int) :
    titleOf (delete_chat st d).1 c = titleOf st c
    ∨ titleOf (delete_chat st d).1 c = none := by
  by_cases h : c = d
  · right
    subst h
    have hnone : (st.chats.filter (fun r => decide (r.id ≠ c))).find?
        (fun r => decide (r.id = c)) = none := by
      rw [List.find?_eq_none]
      intro x hx
      simp only [List.mem_filter] at hx
      simpa using hx.2
    simp [titleOf, delete_chat, hnone]
  · left
    have heq : (st.chats.filter (fun r => decide (r.id ≠ d))).find?
        (fun r => decide (r.id = c)) = st.chats.find? (fun r => decide (r.id = c)) := by
      apply find?_filter_of_imp
      intro a ha
      simp at ha ⊢
      rw [ha]
      exact h
    simp only [titleOf, delete_chat]
    rw [heq]

/-- Persona chat endpoints never touch the `chats` table. -/
lemma chat_endpoint_chats (p : String) (gw : Gateway) (st : DB)
    (c : Int) (m : String) :
    (chat_endpoint p gw st c m).1.chats = st.chats := by
  simp only [chat_endpoint]
  cases call_chat_model gw p (pyOr m "") <;> simp [save_message]

/-- Claim C6 (amended): after creation, the stored title of an existing
chat is changed only by the title-generation operation: every other
operation either leaves the chat's title unchanged, or the chat does not
exist before (creation) or after (deletion) the step.  Repeated
title-generation calls can change the title again, so "at most once over
any operation sequence" does not hold. -/
theorem title_changed_only_by_title_generation (st : DB) (op : Op) (c : Int)
    (h : ∀ r cid m, op ≠ Op.generateTitle r cid m) :
    titleOf (step st op) c = titleOf st c
    ∨ titleOf st c = none
    ∨ titleOf (step st op) c = none := by
  cases op with
  | createChat =>
    by_cases hn : titleOf st c = none
    · exact Or.inr (Or.inl hn)
    · exact Or.inl (titleOf_create st c hn)
  | generateTitle r cid m => exact absurd rfl (h r cid m)
  | listChats => exact Or.inl rfl
  | getMessages i => exact Or.inl rfl
  | deleteChat d =>
    rcases titleOf_delete st c d with h1 | h1
    · exact Or.inl h1
    · exact Or.inr (Or.inr h1)
  | personaChat i r cid m =>
    refine Or.inl ?_
    show titleOf (chat_endpoint (personaPrompts.getD i "") (fun _ _ => r) st cid m).1 c
        = titleOf st c
    unfold titleOf
    rw [chat_endpoint_chats]

/-- Concrete instance of `title_changed_only_by_title_generation`: a
persona chat call on a one-chat database leaves the stored title alone. -/
theorem title_changed_only_by_title_generation_witness :
    titleOf (step (create_chat DB.init).1 (Op.personaChat 0 none 1 "hi")) 1
        = titleOf (create_chat DB.init).1 1
    ∨ titleOf (create_chat DB.init).1 1 = none
    ∨ titleOf (step (create_chat DB.init).1 (Op.personaChat 0 none 1 "hi")) 1 = none :=
  title_changed_only_by_title_generation (create_chat DB.init).1
    (Op.personaChat 0 none 1 "hi") 1 (fun _ _ _ hne => Op.noConfusion hne)
